import Mathlib

/-!
Verification of PyCLIMenu (`src/menu.py`).

Shallow embedding of the console-menu library `menu.py`.  Python exceptions
are modelled with `Except PyErr`; the Python `None` object is `Obj.none`
(for stored option values) and `Option.none` (for optional string fields);
console output and callback invocations are recorded as a list of `Event`s.
Callbacks are identified by name and invoking one is recorded as an
`Event.call`; the callback bodies themselves are out of scope.
-/

namespace PyCLIMenu

/-- Python exception classes that the code in `menu.py` can raise.
`valueError` carries the message (raised by `int()` on a bad literal and by
`math.log` on `0`); `indexError` is raised by list indexing out of range;
`eofError` by `input()` on an exhausted input stream; `attributeError` by
attribute access on an object lacking the attribute (e.g. `None.items()`). -/
inductive PyErr where
  | valueError (msg : String)
  | indexError
  | eofError
  | attributeError
  deriving DecidableEq, Repr

/-- An opaque Python object stored as an `OptionMenuItem.value`.
`Obj.none` models the Python `None` object; the other constructors model the
payloads used in examples. -/
inductive Obj where
  | none
  | str (s : String)
  | int (n : Int)
  deriving DecidableEq, Repr

/-- Events observable during a menu session: a `print(...)` call, the prompt
written by `input(...)`, and a callback invocation. -/
inductive Event where
  | out (line : String)
  | prompt (text : String)
  | call (name : String)
  deriving DecidableEq, Repr

/-- Python `str(x)` applied to an optional string attribute: `None` renders
as the text `"None"` inside an f-string. -/
def pyStr : Option String → String
  | Option.none => "None"
  | some s => s

/-- Model of the Python builtin `int(s)` on a string: strips surrounding
whitespace, accepts an optional sign followed by one or more decimal digits;
`Option.none` models the `ValueError` raised on any other input
(digit-grouping underscores are not modelled; no claim exercises them). -/
def digitsToNat : List Char → Option Nat
  | [] => Option.none
  | cs =>
    if cs.all Char.isDigit then
      some (cs.foldl (fun a c => 10 * a + (c.toNat - 48)) 0)
    else
      Option.none

/-- The whitespace stripping performed by `int(s)` on both ends of the
literal. -/
def trimChars (cs : List Char) : List Char :=
  ((cs.dropWhile Char.isWhitespace).reverse.dropWhile Char.isWhitespace).reverse

/-- See `digitsToNat`; full model of `int(s)` including sign handling. -/
def pyParseInt (s : String) : Option Int :=
  match trimChars s.toList with
  | '+' :: rest => (digitsToNat rest).map Int.ofNat
  | '-' :: rest => (digitsToNat rest).map (fun n => -(n : Int))
  | rest => (digitsToNat rest).map Int.ofNat

/-- Python list subscription `xs[i]`: non-negative indices address from the
front, negative indices address from the back (`xs[-1]` is the last element);
`Option.none` models the `IndexError` raised outside `[-len, len)`. -/
def pyGetItem {α : Type} (xs : List α) (i : Int) : Option α :=
  if 0 ≤ i then
    xs.get? i.toNat
  else
    let j : Int := (xs.length : Int) + i
    if j < 0 then Option.none else xs.get? j.toNat

/-- Replaces the first `\x7b\x7d` placeholder in a character list with
`arg`; later characters are kept unchanged. -/
def formatAux (arg : List Char) : List Char → List Char
  | [] => []
  | '\x7b' :: '\x7d' :: rest => arg ++ rest
  | c :: rest => c :: formatAux arg rest

/-- Python `str.format` with a single positional argument: substitutes the
(single) placeholder in the template. -/
def pyFormat1 (template arg : String) : String :=
  String.mk (formatAux arg.toList template.toList)

/-- Python f-string `f"{i:{width}}"`: right-aligns `s` in a field of `width`
characters, padding with spaces (no padding when `s` is already wider). -/
def padLeft (s : String) (w : Nat) : String :=
  String.mk (List.replicate (w - s.length) ' ') ++ s

/-- Embedding of the `BaseMenuItem` class hierarchy of `menu.py` as a sum:
`menuItem display callback` is a `MenuItem` (callback named by a string),
`optionMenuItem display value` is an `OptionMenuItem`.  The `display`
attribute is an optional string so that the Python `None` object can be
passed for it. -/
inductive BaseMenuItem where
  | menuItem (display : Option String) (callback : String)
  | optionMenuItem (display : Option String) (value : Obj)
  deriving DecidableEq, Repr

/-- The `display` attribute shared by both item classes. -/
def BaseMenuItem.display : BaseMenuItem → Option String
  | .menuItem d _ => d
  | .optionMenuItem d _ => d

/-- `MenuItem.__init__(self, display, callback)`: assigns the attributes and
performs no validation, so construction never raises. -/
def MenuItem.make (display : Option String) (callback : String) :
    Except PyErr BaseMenuItem :=
  .ok (.menuItem display callback)

/-- `OptionMenuItem.__init__(self, display, value)`: assigns the attributes
and performs no validation, so construction never raises. -/
def OptionMenuItem.make (display : Option String) (value : Obj) :
    Except PyErr BaseMenuItem :=
  .ok (.optionMenuItem display value)

/-- State of a `BaseMenu` instance: `name`, `display_exit`, the ordered
`menu_items` list, and the three text attributes set in `__init__`. -/
structure BaseMenu where
  name : Option String
  display_exit : Bool
  menu_items : List BaseMenuItem
  exit_text : String
  invalid_option_text : String
  selection_text : String
  deriving DecidableEq, Repr

/-- `BaseMenu.__init__`: empty item list, default texts. -/
def BaseMenu.make (name : Option String) (display_exit : Bool) : BaseMenu :=
  { name := name
    display_exit := display_exit
    menu_items := []
    exit_text := "Exit"
    invalid_option_text := "Invalid option"
    selection_text := "Please select an option [0-\x7b\x7d]: " }

/-- `BaseMenu.__len__`. -/
def BaseMenu.len (m : BaseMenu) : Nat :=
  m.menu_items.length

/-- `BaseMenu.add_item`: appends to the menu item list. -/
def BaseMenu.add_item (m : BaseMenu) (item : BaseMenuItem) : BaseMenu :=
  { m with menu_items := m.menu_items ++ [item] }

/-- `BaseMenu.add_items`: `add_item` for each element in order. -/
def BaseMenu.add_items (m : BaseMenu) (items : List BaseMenuItem) : BaseMenu :=
  items.foldl BaseMenu.add_item m

/-- `BaseMenu.get_selection(self, selection)`: Python list indexing at
`selection - 1`; an `IndexError` escapes (the `except` clause re-raises it). -/
def BaseMenu.get_selection (m : BaseMenu) (selection : Int) :
    Except PyErr BaseMenuItem :=
  match pyGetItem m.menu_items (selection - 1) with
  | some item => .ok item
  | Option.none => .error .indexError

/-- Fuel-driven evaluator for the base-10 integer logarithm; with fuel at
least `n` it computes `Nat.log 10 n` (theorem `log10Aux_eq_log`), by
structural recursion so that concrete instances reduce in the kernel. -/
def log10Aux : Nat → Nat → Nat
  | 0, _ => 0
  | fuel + 1, n => if n < 10 then 0 else log10Aux fuel (n / 10) + 1

/-- `math.floor(math.log(n, 10))` for a natural `n ≥ 1` in exact integer
arithmetic (theorems `natLog10_eq_log` and `natLog10_eq_floor_logb` below
relate it to `Nat.log` and to `⌊Real.logb 10 n⌋`).  This is a surrogate for
CPython's IEEE binary64 evaluation `log(n) / log(10)`: the two agree for
every `n < 10` (there the float quotient lies in `[0, 1)` — even the
largest, at `n = 9`, is below `0.9543` — so both floors are `0`), and in
particular on every menu rendered in this file, but not universally: at
`n = 1000` the float quotient falls just below `3` and the floors differ.
`floatWidth` below models the IEEE evaluation itself; the C7 theorems
prove the divergence. -/
def natLog10 (n : Nat) : Nat :=
  log10Aux n n

/-- The width computed on line 116 of `menu.py`:
`math.floor(math.log(len(self), 10)) + 1`, via the exact surrogate
`natLog10` (faithful to the float computation for `n < 10`, which covers
every menu rendered in this file; `floatWidth` models the IEEE evaluation
where the two differ).  `math.log(0, 10)` raises
`ValueError: math domain error`. -/
def menuWidth (n : Nat) : Except PyErr Nat :=
  if n = 0 then .error (.valueError "math domain error")
  else .ok (natLog10 n + 1)

/-- Round-to-nearest, ties-to-even, of the exact quotient `a / b` of two
positive naturals. -/
def rnEven (a b : Nat) : Nat :=
  let q := a / b
  let r := a % b
  if 2 * r < b then q
  else if b < 2 * r then q + 1
  else if q % 2 = 0 then q else q + 1

/-- IEEE-754 binary64 division of two positive doubles, each given as an
integer significand `m ∈ [2^52, 2^53)` and an exponent `e` (the value is
`m * 2^(e-52)`), rounded to nearest with ties to even — the semantics of
the division CPython performs for `math.log(n, 10) = log(n) / log(10)`. -/
def dblDiv (ma : Nat) (ea : Int) (mb : Nat) (eb : Int) : Nat × Int :=
  if mb ≤ ma then
    let q := rnEven (ma * 2 ^ 52) mb
    if q < 2 ^ 53 then (q, ea - eb) else (2 ^ 52, ea - eb + 1)
  else
    let q := rnEven (ma * 2 ^ 53) mb
    if q < 2 ^ 53 then (q, ea - eb - 1) else (2 ^ 52, ea - eb)

/-- `math.floor` of a positive double `(m, e)` of value `m * 2^(e-52)`,
for exponents `e ≤ 52` (all quotients arising here). -/
def dblFloor (m : Nat) (e : Int) : Nat :=
  m / 2 ^ (52 - e).toNat

/-- The binary64 value of `math.log(9)` as returned by the platform libm,
`0x1.193ea7aad030bp+1`, in significand-exponent form. -/
def dblLog9 : Nat × Int := (4947709893870347, 1)

/-- The binary64 value of `math.log(10)`, `0x1.26bb1bbb55516p+1`. -/
def dblLog10 : Nat × Int := (5184960683398422, 1)

/-- The binary64 value of `math.log(1000)`, `0x1.ba18a998fffa0p+2`. -/
def dblLog1000 : Nat × Int := (7777441025097632, 2)

/-- Line 116 of `menu.py` evaluated in IEEE binary64 exactly as CPython
does — `math.floor(log(n) / log(10)) + 1` — given the platform double of
`log(n)`.  The model reproduces the float quotients bit for bit: for
`dblLog9` the quotient is `0x1.e8927964fd5fdp-1`, for `dblLog10` it is
exactly `1.0`, and for `dblLog1000` it is
`0x1.7ffffffffffffp+1 = 2.9999999999999996`, just below `3`. -/
def floatWidth (dlogN : Nat × Int) : Nat :=
  let q := dblDiv dlogN.1 dlogN.2 dblLog10.1 dblLog10.2
  dblFloor q.1 q.2 + 1

/-- `BaseMenu.print`: the list of lines written, in order — the separating
`print("\n")`, the title when present, one `"{i:{width}}: {display}"` line
per item with 1-based indices, and the exit line when `display_exit`. -/
def BaseMenu.printLines (m : BaseMenu) : Except PyErr (List String) :=
  match menuWidth m.len with
  | .error e => .error e
  | .ok width =>
    let titleLines := match m.name with
      | some n => [n]
      | Option.none => []
    let itemLines := m.menu_items.enum.map fun p =>
      padLeft (toString (p.1 + 1)) width ++ ": " ++ pyStr p.2.display
    let exitLines :=
      if m.display_exit then [padLeft "0" width ++ ": " ++ m.exit_text] else []
    .ok (["\n"] ++ titleLines ++ itemLines ++ exitLines)

/-- The text written by `input(self.selection_text.format(len(self)))`. -/
def promptEvent (m : BaseMenu) : Event :=
  .prompt (pyFormat1 m.selection_text (toString m.len))

/-- `Menu.__init__(self, name)`: a `BaseMenu` with `display_exit = True`. -/
def Menu.make (name : Option String) : BaseMenu :=
  BaseMenu.make name true

/-- `OptionMenu.__init__(self, name)`: `display_exit = False`. -/
def OptionMenu.make (name : Option String) : BaseMenu :=
  BaseMenu.make name false

/-- The `while` loop of `Menu.display` (after the initial `self.print()`),
driven by the remaining input lines.  Each iteration: prompt and read a line
(`EOFError` when exhausted), parse it with `int` (`ValueError` propagates),
stop when the value is `0`; otherwise `get_selection` — on success access
`.callback` and invoke it (an `OptionMenuItem` would raise
`AttributeError`, uncaught since it is not an `IndexError`), on `IndexError`
print `invalid_option_text`; then `self.print()` and loop. -/
def Menu.loop (m : BaseMenu) : List String → Except PyErr (List Event)
  | [] => .error .eofError
  | line :: rest =>
    match pyParseInt line with
    | Option.none => .error (.valueError "invalid literal for int() with base 10")
    | some sel =>
      if sel = 0 then
        .ok [promptEvent m]
      else
        match m.get_selection sel with
        | .ok (.optionMenuItem _ _) => .error .attributeError
        | .ok (.menuItem _ cb) =>
          match m.printLines, Menu.loop m rest with
          | .error e, _ => .error e
          | _, .error e => .error e
          | .ok pl, .ok tail =>
            .ok ([promptEvent m, Event.call cb] ++ pl.map Event.out ++ tail)
        | .error _ =>
          match m.printLines, Menu.loop m rest with
          | .error e, _ => .error e
          | _, .error e => .error e
          | .ok pl, .ok tail =>
            .ok ([promptEvent m, Event.out m.invalid_option_text]
              ++ pl.map Event.out ++ tail)

/-- `Menu.display`: `self.print()` then the selection loop; produces no
value (the events record the session). -/
def Menu.display (m : BaseMenu) (inputs : List String) :
    Except PyErr (List Event) :=
  match m.printLines, Menu.loop m inputs with
  | .error e, _ => .error e
  | _, .error e => .error e
  | .ok pl, .ok tail => .ok (pl.map Event.out ++ tail)

/-- The `while` loop of `OptionMenu.display`: same reading/parsing as
`Menu.loop`, but on a successful `get_selection` it returns `item.value`
immediately; falling out of the loop via the `0` sentinel reaches the end of
the function body, which in Python returns `None` (`Obj.none` here). -/
def OptionMenu.loop (m : BaseMenu) : List String → Except PyErr (List Event × Obj)
  | [] => .error .eofError
  | line :: rest =>
    match pyParseInt line with
    | Option.none => .error (.valueError "invalid literal for int() with base 10")
    | some sel =>
      if sel = 0 then
        .ok ([promptEvent m], Obj.none)
      else
        match m.get_selection sel with
        | .ok (.optionMenuItem _ v) => .ok ([promptEvent m], v)
        | .ok (.menuItem _ _) => .error .attributeError
        | .error _ =>
          match m.printLines, OptionMenu.loop m rest with
          | .error e, _ => .error e
          | _, .error e => .error e
          | .ok pl, .ok tail =>
            .ok ([promptEvent m, Event.out m.invalid_option_text]
              ++ pl.map Event.out ++ tail.1, tail.2)

/-- `OptionMenu.display`: `self.print()` then the loop; the returned `Obj`
is the function's return value. -/
def OptionMenu.display (m : BaseMenu) (inputs : List String) :
    Except PyErr (List Event × Obj) :=
  match m.printLines, OptionMenu.loop m inputs with
  | .error e, _ => .error e
  | _, .error e => .error e
  | .ok pl, .ok tail => .ok (pl.map Event.out ++ tail.1, tail.2)

/-- The population step shared by `BasicMenu.__init__`: one `MenuItem` per
`(label, callback)` pair of the dict, in insertion order. -/
def Menu.ofPairs (name : Option String) (pairs : List (String × String)) :
    BaseMenu :=
  (Menu.make name).add_items (pairs.map fun p => .menuItem (some p.1) p.2)

/-- The population step shared by `BasicOptionMenu.__init__`: one
`OptionMenuItem` per `(label, value)` pair, in insertion order. -/
def OptionMenu.ofPairs (name : Option String) (pairs : List (String × Obj)) :
    BaseMenu :=
  (OptionMenu.make name).add_items
    (pairs.map fun p => .optionMenuItem (some p.1) p.2)

/-- `BasicMenu.__init__(self, name=None, items=None)`: builds the item list
from `items.items()` — when `items` is the default `None`, the attribute
access raises `AttributeError` before anything is rendered — then
`add_items` and `self.display()`. -/
def BasicMenu.make (name : Option String)
    (items : Option (List (String × String))) (inputs : List String) :
    Except PyErr (List Event) :=
  match items with
  | Option.none => .error .attributeError
  | some pairs => Menu.display (Menu.ofPairs name pairs) inputs

/-- `BasicOptionMenu.__init__(self, name=None, items=None)`: as
`BasicMenu.make` but with `OptionMenuItem`s and the value loop; the loop's
result is stored in `self.selection`. -/
def BasicOptionMenu.make (name : Option String)
    (items : Option (List (String × Obj))) (inputs : List String) :
    Except PyErr (List Event × Obj) :=
  match items with
  | Option.none => .error .attributeError
  | some pairs => OptionMenu.display (OptionMenu.ofPairs name pairs) inputs

/-- The value component of an `OptionMenu.display` outcome, when it
succeeded. -/
def resultValue : Except PyErr (List Event × Obj) → Option Obj
  | .ok p => some p.2
  | .error _ => Option.none

/-- Number of callback invocations recorded in a `Menu.display` outcome,
when it succeeded. -/
def callCount : Except PyErr (List Event) → Option Nat
  | .ok evs =>
    some (evs.filter (fun e => match e with
      | .call _ => true
      | _ => false)).length
  | .error _ => Option.none

/-- Concrete two-item action menu (labels `A`, `B`) used for the concrete
instances below. -/
def menuAB : BaseMenu :=
  Menu.ofPairs Option.none [("A", "a"), ("B", "b")]

theorem log10Aux_eq_log (fuel n : Nat) (h : n ≤ fuel) :
    log10Aux fuel n = Nat.log 10 n := by
  induction fuel generalizing n with
  | zero =>
    have hn : n = 0 := Nat.le_zero.mp h
    subst hn
    show (0 : Nat) = Nat.log 10 0
    rw [Nat.log_zero_right]
  | succ fuel ih =>
    show (if n < 10 then 0 else log10Aux fuel (n / 10) + 1) = Nat.log 10 n
    by_cases hn : n < 10
    · rw [if_pos hn, Nat.log_of_lt hn]
    · have h10 : 10 ≤ n := Nat.le_of_not_lt hn
      have hdiv : n / 10 ≤ fuel := by omega
      rw [if_neg hn, ih _ hdiv,
        Nat.log_of_one_lt_of_le (by norm_num) h10]

theorem natLog10_eq_log (n : Nat) : natLog10 n = Nat.log 10 n :=
  log10Aux_eq_log n n (Nat.le_refl n)

/-- Faithfulness of the exact-arithmetic width model: `natLog10 n` is the
floor of the real base-10 logarithm of `n`. -/
theorem natLog10_eq_floor_logb (n : Nat) :
    (natLog10 n : Int) = ⌊Real.logb 10 (n : Real)⌋ := by
  have h10 : ((10 : Nat) : Real) = (10 : Real) := by norm_num
  rw [← h10, Real.floor_logb_natCast (by positivity), Int.log_natCast,
    natLog10_eq_log]

theorem add_items_menu_items (m : BaseMenu) (l : List BaseMenuItem) :
    (m.add_items l).menu_items = m.menu_items ++ l := by
  induction l generalizing m with
  | nil => simp [BaseMenu.add_items]
  | cons a t ih =>
    show ((m.add_item a).add_items t).menu_items = _
    rw [ih]
    simp [BaseMenu.add_item]

theorem get_selection_gt_len (m : BaseMenu) (s : Int)
    (hs : (m.len : Int) < s) : m.get_selection s = .error .indexError := by
  have hlen : m.menu_items.length = m.len := rfl
  have h0 : (0 : Int) ≤ s - 1 := by omega
  have hnone : pyGetItem m.menu_items (s - 1) = Option.none := by
    unfold pyGetItem
    rw [if_pos h0]
    exact List.get?_eq_none.mpr (by omega)
  unfold BaseMenu.get_selection
  rw [hnone]

theorem get_selection_ofPairs (name : Option String)
    (pairs : List (String × Obj)) (j : Nat) (hj : j < pairs.length) :
    (OptionMenu.ofPairs name pairs).get_selection ((j : Int) + 1)
      = .ok (.optionMenuItem (some (pairs.get ⟨j, hj⟩).1)
          (pairs.get ⟨j, hj⟩).2) := by
  have hitems : (OptionMenu.ofPairs name pairs).menu_items
      = pairs.map fun p => .optionMenuItem (some p.1) p.2 := by
    unfold OptionMenu.ofPairs
    rw [add_items_menu_items]
    rfl
  have hget : pyGetItem (OptionMenu.ofPairs name pairs).menu_items
        ((j : Int) + 1 - 1)
      = some (.optionMenuItem (some (pairs.get ⟨j, hj⟩).1)
          (pairs.get ⟨j, hj⟩).2) := by
    rw [hitems]
    unfold pyGetItem
    rw [if_pos (by omega)]
    have h2 : ((j : Int) + 1 - 1).toNat = j := by omega
    rw [h2, List.get?_map, List.get?_eq_get hj]
    rfl
  unfold BaseMenu.get_selection
  rw [hget]

/-- C1: on the concrete two-item menu, `get_selection` behaves as claimed
for selections `1`, `2` and `count() + 1 = 3`, but for `0` it returns the
LAST item and for `-1` the first — Python negative indexing on
`menu_items[selection - 1]` — instead of failing for every selection below
1; only selections below `1 - count()` raise `IndexError`. -/
theorem C1_get_selection_negative_indexing :
    menuAB.get_selection 1 = .ok (.menuItem (some "A") "a")
      ∧ menuAB.get_selection 2 = .ok (.menuItem (some "B") "b")
      ∧ menuAB.get_selection 3 = .error .indexError
      ∧ menuAB.get_selection 0 = .ok (.menuItem (some "B") "b")
      ∧ menuAB.get_selection (-1) = .ok (.menuItem (some "A") "a")
      ∧ menuAB.get_selection (-2) = .error .indexError :=
  ⟨rfl, rfl, rfl, rfl, rfl, rfl⟩

/-- C2 counterexample: on a one-item value menu whose stored value is the
Python `None` object, exiting via the `0` sentinel and selecting the stored
value both yield `Obj.none` — the "no selection" outcome is NOT
distinguishable from the legitimately stored null-like value. -/
theorem C2_stored_none_collides_with_exit :
    resultValue (OptionMenu.display
        (OptionMenu.ofPairs Option.none [("N", Obj.none)]) ["0"])
      = some Obj.none
      ∧ resultValue (OptionMenu.display
        (OptionMenu.ofPairs Option.none [("N", Obj.none)]) ["1"])
      = some Obj.none :=
  ⟨rfl, rfl⟩

/-- C2 amended: for every value menu (in particular with `display_exit`
false, where no exit line is rendered), entering `0` with no prior valid
selection terminates the loop, and the result is the Python `None` object
from the implicit return — which collides with a stored `None` value rather
than being distinguishable from it. -/
theorem C2_zero_sentinel_terminates_with_none (m : BaseMenu)
    (rest : List String) :
    OptionMenu.loop m ("0" :: rest) = .ok ([promptEvent m], Obj.none) :=
  rfl

/-- C3 counterexample: constructing a `MenuItem` or an `OptionMenuItem`
with an absent (`None`) display succeeds; `__init__` performs no validation
and never raises anything like `InvalidArgument`. -/
theorem C3_absent_display_accepted :
    MenuItem.make Option.none "f" = .ok (.menuItem Option.none "f")
      ∧ OptionMenuItem.make Option.none Obj.none
        = .ok (.optionMenuItem Option.none Obj.none) :=
  ⟨rfl, rfl⟩

/-- C3 amended: item construction is total — for every display (provided
or absent) and payload it succeeds, yielding a record holding the display
plus exactly one of callback/value; no `InvalidArgument` check exists. -/
theorem C3_construction_total (d : Option String) (cb : String) (v : Obj) :
    MenuItem.make d cb = .ok (.menuItem d cb)
      ∧ OptionMenuItem.make d v = .ok (.optionMenuItem d v) :=
  ⟨rfl, rfl⟩

/-- C4 counterexample: `print` on an empty menu fails with the `ValueError`
("math domain error") raised by `math.log(0, 10)` — the code reproduces the
undefined `log10(0)` computation; no explicit `EmptyMenu` precondition
check exists (see `PyErr`). -/
theorem C4_empty_menu_math_domain_error :
    (BaseMenu.make Option.none true).printLines
      = .error (.valueError "math domain error") :=
  rfl

/-- C4 amended: for every menu with `count() = 0`, `print` fails before
writing any output, but via the `ValueError` of the reproduced `log10(0)`
computation, not via an explicit `EmptyMenu` precondition check. -/
theorem C4_empty_menu_fails_before_output (m : BaseMenu) (h : m.len = 0) :
    m.printLines = .error (.valueError "math domain error") := by
  unfold BaseMenu.printLines
  rw [h]
  rfl

theorem C4_empty_menu_fails_before_output_witness :
    (BaseMenu.make Option.none true).len = 0
      ∧ (BaseMenu.make Option.none true).printLines
        = .error (.valueError "math domain error") :=
  ⟨rfl, C4_empty_menu_fails_before_output (BaseMenu.make Option.none true) rfl⟩

/-- C5: for both loop variants, a first line that does not parse as an
integer is fatal — the `ValueError` is not caught and no re-prompt happens —
and an exhausted input stream (`EOFError`) is equally fatal; both errors
propagate out of the whole loop. -/
theorem C5_invalid_input_fatal (m : BaseMenu) (line : String)
    (rest : List String) (h : pyParseInt line = Option.none) :
    Menu.loop m (line :: rest)
        = .error (.valueError "invalid literal for int() with base 10")
      ∧ OptionMenu.loop m (line :: rest)
        = .error (.valueError "invalid literal for int() with base 10")
      ∧ Menu.loop m [] = .error .eofError
      ∧ OptionMenu.loop m [] = .error .eofError := by
  refine ⟨?_, ?_, rfl, rfl⟩
  · simp only [Menu.loop, h]
  · simp only [OptionMenu.loop, h]

theorem C5_invalid_input_fatal_witness :
    pyParseInt "abc" = Option.none
      ∧ (Menu.loop menuAB ["abc"]
          = .error (.valueError "invalid literal for int() with base 10")
        ∧ OptionMenu.loop menuAB ["abc"]
          = .error (.valueError "invalid literal for int() with base 10")
        ∧ Menu.loop menuAB [] = .error .eofError
        ∧ OptionMenu.loop menuAB [] = .error .eofError) :=
  ⟨rfl, C5_invalid_input_fatal menuAB "abc" [] rfl⟩

/-- C6: in both variants, a parsed selection greater than `count()` is
recovered inside the loop: the invalid-option message is written, the menu
re-rendered, and the loop continues on the remaining input — no exception
escapes from this step and the loop does not terminate on it. -/
theorem C6_out_of_range_reprompts (m : BaseMenu) (line : String)
    (rest : List String) (s : Int) (pl : List String)
    (hp : pyParseInt line = some s) (hs : (m.len : Int) < s)
    (hpl : m.printLines = .ok pl) :
    Menu.loop m (line :: rest)
        = (Menu.loop m rest).map
            (fun tail => [promptEvent m, Event.out m.invalid_option_text]
              ++ pl.map Event.out ++ tail)
      ∧ OptionMenu.loop m (line :: rest)
        = (OptionMenu.loop m rest).map
            (fun tail => ([promptEvent m, Event.out m.invalid_option_text]
              ++ pl.map Event.out ++ tail.1, tail.2)) := by
  have h0 : (0 : Int) ≤ (m.len : Int) := Int.ofNat_nonneg _
  have hnz : s ≠ 0 := by omega
  have hsel := get_selection_gt_len m s hs
  constructor
  · simp only [Menu.loop, hp, if_neg hnz, hsel, hpl]
    cases htail : Menu.loop m rest <;> simp [Except.map]
  · simp only [OptionMenu.loop, hp, if_neg hnz, hsel, hpl]
    cases htail : OptionMenu.loop m rest <;> simp [Except.map]

theorem C6_out_of_range_reprompts_witness :
    pyParseInt "5" = some 5
      ∧ ((menuAB.len : Int) < 5)
      ∧ menuAB.printLines = .ok ["\n", "1: A", "2: B", "0: Exit"]
      ∧ (Menu.loop menuAB ["5", "0"]
          = (Menu.loop menuAB ["0"]).map
              (fun tail => [promptEvent menuAB,
                  Event.out menuAB.invalid_option_text]
                ++ (["\n", "1: A", "2: B", "0: Exit"]).map Event.out ++ tail)
        ∧ OptionMenu.loop menuAB ["5", "0"]
          = (OptionMenu.loop menuAB ["0"]).map
              (fun tail => ([promptEvent menuAB,
                  Event.out menuAB.invalid_option_text]
                ++ (["\n", "1: A", "2: B", "0: Exit"]).map Event.out
                ++ tail.1, tail.2))) :=
  ⟨rfl, by decide, rfl,
    C6_out_of_range_reprompts menuAB "5" ["0"] 5
      ["\n", "1: A", "2: B", "0: Exit"] rfl (by decide) rfl⟩

/-- C7 counterexample: at 1000 items, line 116 evaluated in IEEE binary64
as the program does — `floor(log(1000)/log(10)) + 1`, where the float
quotient is `2.9999999999999996`, just below 3 — yields width 3, while the
decimal digit width of the largest index 1000 is 4: the claimed equality
with `floor(log10(count())) + 1 = digit width` fails for this menu size. -/
theorem C7_float_width_1000_below_digit_width :
    floatWidth dblLog1000 = 3
      ∧ (Nat.digits 10 1000).length = 4
      ∧ floatWidth dblLog1000 ≠ (Nat.digits 10 1000).length := by
  have hd : (Nat.digits 10 1000).length = 4 := by
    rw [Nat.digits_len 10 1000 (by norm_num) (by norm_num),
      ← natLog10_eq_log]
    decide
  refine ⟨rfl, hd, ?_⟩
  rw [hd]
  decide

/-- C7 amended: the index column width is the IEEE binary64 evaluation of
`floor(log10(count())) + 1`, which agrees with the decimal digit width at
the claimed boundary — width 1 for a menu with exactly 9 items and width 2
for one with exactly 10 — though not for every count (see the
counterexample at 1000). -/
theorem C7_width_boundary_9_10 :
    floatWidth dblLog9 = 1
      ∧ floatWidth dblLog10 = 2
      ∧ floatWidth dblLog9 = (Nat.digits 10 9).length
      ∧ floatWidth dblLog10 = (Nat.digits 10 10).length := by
  have h9 : (Nat.digits 10 9).length = 1 := by
    rw [Nat.digits_len 10 9 (by norm_num) (by norm_num), ← natLog10_eq_log]
    decide
  have h10 : (Nat.digits 10 10).length = 2 := by
    rw [Nat.digits_len 10 10 (by norm_num) (by norm_num), ← natLog10_eq_log]
    decide
  exact ⟨rfl, rfl, by rw [h9]; decide, by rw [h10]; decide⟩

/-- C8: on the action menu `A ↦ inc, B ↦ inc` with inputs
`["1", "1", "0"]`, the session succeeds (the loop terminates at the `0`
sentinel, producing only events, no value) and the selected callback is
invoked exactly twice. -/
theorem C8_action_runs_twice_then_exits :
    callCount (Menu.display (Menu.ofPairs (some "t")
      [("A", "inc"), ("B", "inc")]) ["1", "1", "0"]) = some 2 :=
  rfl

/-- C9: on a value menu built from pairs, whenever the first input line
parses to a valid 1-based index, the loop returns that item's stored value
immediately: exactly one prompt is issued, the remaining input is never
read, and the loop terminates with the value. -/
theorem C9_valid_first_input_returns_value (name : Option String)
    (pairs : List (String × Obj)) (line : String) (rest : List String)
    (j : Nat) (hj : j < pairs.length)
    (hp : pyParseInt line = some ((j : Int) + 1)) :
    OptionMenu.loop (OptionMenu.ofPairs name pairs) (line :: rest)
      = .ok ([promptEvent (OptionMenu.ofPairs name pairs)],
          (pairs.get ⟨j, hj⟩).2) := by
  have hnz : ((j : Int) + 1) ≠ 0 := by omega
  simp only [OptionMenu.loop, hp, if_neg hnz,
    get_selection_ofPairs name pairs j hj]

theorem C9_valid_first_input_returns_value_witness :
    1 < ([("Red", Obj.str "R"), ("Blue", Obj.str "B")]
        : List (String × Obj)).length
      ∧ pyParseInt "2" = some ((1 : Int) + 1)
      ∧ OptionMenu.loop (OptionMenu.ofPairs Option.none
            [("Red", Obj.str "R"), ("Blue", Obj.str "B")]) ["2"]
        = .ok ([promptEvent (OptionMenu.ofPairs Option.none
            [("Red", Obj.str "R"), ("Blue", Obj.str "B")])], Obj.str "B") :=
  ⟨by norm_num, rfl,
    C9_valid_first_input_returns_value Option.none
      [("Red", Obj.str "R"), ("Blue", Obj.str "B")] "2" [] 1
      (by norm_num) rfl⟩

/-- C10: constructing `BasicMenu` or `BasicOptionMenu` while leaving
`items` at its declared default `None` fails with the unguarded
`AttributeError` from iterating `None.items()`, before any menu is
rendered. -/
theorem C10_default_items_crashes (name : Option String)
    (inputs : List String) :
    BasicMenu.make name Option.none inputs = .error .attributeError
      ∧ BasicOptionMenu.make name Option.none inputs
        = .error .attributeError :=
  ⟨rfl, rfl⟩

end PyCLIMenu
